import Mathlib

/-!
Verification of the Roach-Tracker authentication and data-access core.

This file gives a shallow embedding of the security-relevant parts of the
repository (app/security.py, app/validators.py, app/models.py) and proves
properties of that embedding.

Modelling conventions:
- Wall-clock instants are integers (seconds).  `datetime.now()` becomes an
  explicit `now` argument threaded through each operation.
- Python dictionaries keyed by strings become functions `String → α` updated
  pointwise; `defaultdict(list)` missing keys are the empty list, plain dict
  missing keys are `none`.
- SQLite tables become Lean lists of row structures; AUTOINCREMENT ids become
  an explicit counter.  Note that no connection in the repository ever runs
  `PRAGMA foreign_keys = ON`, so SQLite foreign-key actions (including the
  `ON DELETE CASCADE` declared on user_properties) are not enforced at run
  time; the embedding reflects the run-time behaviour.
- Functions that can raise `ValueError` / `sqlite3.IntegrityError` return
  `Except String α`, carrying the raised message.
-/

/-- Pointwise update of a string-keyed map, the model of `d[k] = v` on a
Python dict. -/
def setFn {α : Type} (f : String → α) (k : String) (v : α) : String → α :=
  fun k2 => if k2 = k then v else f k2

/-- Security event record, the model of a `log_security_event` call made by
the rate limiter (event type, details, ip_address). -/
structure AuditEvent where
  event_type : String
  details : String
  ip_address : String
deriving DecidableEq

/-- Model of `SecurityEvent.ACCOUNT_LOCKED`. -/
def ACCOUNT_LOCKED : String := "account_locked"

/-- The audit event emitted by `record_attempt` when it locks an identifier
out (the `log_security_event` call at the end of the method). -/
def lockoutEvent (identifier : String) : AuditEvent :=
  { event_type := ACCOUNT_LOCKED,
    details := "Account locked after 5 failed attempts",
    ip_address := identifier }

/-- State of `RateLimiter` (app/security.py): per-identifier attempt lists
`(timestamp, success)` and per-identifier lockout expiry instants. -/
structure RateLimiter where
  attempts : String → List (Int × Bool)
  lockouts : String → Option Int

/-- Model of `RateLimiter.__init__`: empty attempt and lockout maps. -/
def RateLimiter.init : RateLimiter :=
  { attempts := fun _ => [], lockouts := fun _ => none }

/-- Configuration constant `self.max_attempts = 5`. -/
def max_attempts : Nat := 5

/-- Configuration constant `self.window_seconds = 300`. -/
def window_seconds : Int := 300

/-- Configuration constant `self.lockout_duration = 900`. -/
def lockout_duration : Int := 900

/-- Model of `RateLimiter._clean_old_attempts`: drop attempts whose timestamp
is not strictly newer than `now - window_seconds` (the code keeps `ts > cutoff`
with `cutoff = now - 300`). -/
def RateLimiter.cleanOldAttempts (rl : RateLimiter) (identifier : String)
    (now : Int) : RateLimiter :=
  { rl with
    attempts := setFn rl.attempts identifier
      ((rl.attempts identifier).filter (fun a => now - window_seconds < a.1)) }

/-- Model of `RateLimiter.is_locked_out`: returns the boolean result together
with the state after the call (an expired lockout is removed and the failure
history cleared as a side effect of the check). -/
def RateLimiter.is_locked_out (rl : RateLimiter) (identifier : String)
    (now : Int) : Bool × RateLimiter :=
  match rl.lockouts identifier with
  | some untilT =>
      if now < untilT then
        (true, rl)
      else
        (false,
          { attempts := setFn rl.attempts identifier [],
            lockouts := setFn rl.lockouts identifier none })
  | none => (false, rl)

/-- Model of `RateLimiter.record_attempt`: returns the state after the call
together with the list of audit events emitted during the call. -/
def RateLimiter.record_attempt (rl : RateLimiter) (identifier : String)
    (success : Bool) (now : Int) : RateLimiter × List AuditEvent :=
  let rl1 := rl.cleanOldAttempts identifier now
  let rl2 := { rl1 with
    attempts := setFn rl1.attempts identifier
      (rl1.attempts identifier ++ [(now, success)]) }
  if success then
    ({ attempts := setFn rl2.attempts identifier [],
       lockouts := setFn rl2.lockouts identifier none }, [])
  else
    let failed := (rl2.attempts identifier).filter (fun a => !a.2)
    if max_attempts ≤ failed.length then
      ({ rl2 with
         lockouts := setFn rl2.lockouts identifier
           (some (now + lockout_duration)) },
       [lockoutEvent identifier])
    else
      (rl2, [])

/-- Model of `RateLimiter.get_remaining_attempts`: remaining attempts before
lockout together with the state after the call (cleaning is a side effect). -/
def RateLimiter.get_remaining_attempts (rl : RateLimiter) (identifier : String)
    (now : Int) : Nat × RateLimiter :=
  let rl1 := rl.cleanOldAttempts identifier now
  let failed := (rl1.attempts identifier).filter (fun a => !a.2)
  (max_attempts - failed.length, rl1)

/-!  Password policy (app/validators.py).  The regular expressions of
`validate_password_strength` are ported as explicit character-class and
substring checks; each alternation regex becomes the list of its literal
alternatives. -/

/-- Decides whether `needle` occurs as a contiguous substring of `hay`; the
model of Python `needle in hay` and of matching a literal alternative of a
regex with `re.search`. -/
def containsSub (needle : List Char) : List Char → Bool
  | [] => needle.isPrefixOf ([] : List Char)
  | c :: rest => needle.isPrefixOf (c :: rest) || containsSub needle rest

/-- Decides whether some character occurs three or more times consecutively,
the model of the regex `(.)\1{2,}`. -/
def hasTripleRepeat : List Char → Bool
  | a :: b :: c :: rest => (a == b && b == c) || hasTripleRepeat (b :: c :: rest)
  | _ => false

/-- The fixed punctuation class of the `has_special` regex in
`validate_password_strength`.  The double quote, the braces and the backtick
are written via their code points. -/
def special_characters : List Char :=
  ['!', '@', '#', '$', '%', '^', '&', '*', '(', ')', ',', '.', '?',
   Char.ofNat 34, ':', Char.ofNat 123, Char.ofNat 125, '|', '<', '>', '_',
   '-', '+', '=', '[', ']', '\\', ';', '/', '~', Char.ofNat 96]

/-- The `common_patterns` list of `validate_password_strength`. -/
def common_patterns : List (List Char) :=
  ["password".toList, "12345678".toList, "qwerty".toList, "abc123".toList,
   "letmein".toList, "welcome".toList, "monkey".toList,
   "1234567890".toList, "password123".toList]

/-- The alternatives of the sequential-numbers regex
`(012|123|234|345|456|567|678|789|890)`. -/
def sequential_number_patterns : List (List Char) :=
  ["012".toList, "123".toList, "234".toList, "345".toList, "456".toList,
   "567".toList, "678".toList, "789".toList, "890".toList]

/-- The alternatives of the sequential-letters regex
`(abc|bcd|...|xyz)`, matched against the lowercased password. -/
def sequential_letter_patterns : List (List Char) :=
  ["abc".toList, "bcd".toList, "cde".toList, "def".toList, "efg".toList,
   "fgh".toList, "ghi".toList, "hij".toList, "ijk".toList, "jkl".toList,
   "klm".toList, "lmn".toList, "mno".toList, "nop".toList, "opq".toList,
   "pqr".toList, "qrs".toList, "rst".toList, "stu".toList, "tuv".toList,
   "uvw".toList, "vwx".toList, "wxy".toList, "xyz".toList]

/-- Model of `validate_password_strength` (app/validators.py): returns the
`(is_valid, error_message)` pair of the source. -/
def validate_password_strength (password : String) : Bool × String :=
  if password = "" then (false, "Password is required")
  else if password.length < 8 then
    (false, "Password must be at least 8 characters")
  else if 128 < password.length then
    (false, "Password must be at most 128 characters")
  else
    let chars := password.toList
    let has_upper := chars.any (fun c => 'A' ≤ c && c ≤ 'Z')
    let has_lower := chars.any (fun c => 'a' ≤ c && c ≤ 'z')
    let has_digit := chars.any (fun c => '0' ≤ c && c ≤ '9')
    let has_special := chars.any (fun c => special_characters.contains c)
    if !has_upper then
      (false, "Password must contain at least one uppercase letter")
    else if !has_lower then
      (false, "Password must contain at least one lowercase letter")
    else if !has_digit then
      (false, "Password must contain at least one number")
    else if !has_special then
      (false, "Password must contain at least one special character (!@#$%^&*...)")
    else
      let lower := chars.map Char.toLower
      if common_patterns.any (fun p => containsSub p lower) then
        (false, "Password contains a common pattern. Please choose a stronger password")
      else if sequential_number_patterns.any (fun p => containsSub p chars) then
        (false, "Password should not contain sequential numbers")
      else if sequential_letter_patterns.any (fun p => containsSub p lower) then
        (false, "Password should not contain sequential letters")
      else if hasTripleRepeat chars then
        (false, "Password should not contain repeated characters")
      else
        (true, "")

/-!  Database layer (app/models.py).  Tables are lists of rows; AUTOINCREMENT
ids are explicit counters.  String helpers model the Python methods used by
the source (`.strip()`, `.lower()`, `in`). -/

/-- Model of Python `str.strip()`: drop leading and trailing whitespace. -/
def pyStrip (s : String) : String :=
  String.mk (((s.toList.dropWhile Char.isWhitespace).reverse.dropWhile
    Char.isWhitespace).reverse)

/-- Model of Python `str.lower()` on ASCII text. -/
def pyLower (s : String) : String :=
  String.mk (s.toList.map Char.toLower)

/-- Model of werkzeug `generate_password_hash`, a library external to the
repository: treated as a deterministic opaque encoding whose output is never
inspected by the code under verification. -/
def generate_password_hash (password : String) : String :=
  String.append "hashed:" password

/-- Row of the `users` table. -/
structure UserRow where
  id : Nat
  username : String
  email : String
  password_hash : String
  role : String
  full_name : Option String
  is_active : Int
  last_login : Option String
  created_at : String
  updated_at : String
deriving DecidableEq

/-- Row of the `user_properties` association table. -/
structure UserPropertyRow where
  user_id : Nat
  property_id : Nat
  relationship_type : String
  created_at : String
deriving DecidableEq

/-- Row of the `sightings` table.  `timestamp` and `location` are declared
NOT NULL in the schema; every other data column is nullable. -/
structure SightingRow where
  id : Nat
  timestamp : String
  location : String
  room_type : Option String
  roach_count : Int
  roach_size : Option String
  roach_type : Option String
  photo_path : Option String
  notes : Option String
  weather : Option String
  temperature : Option Int
  time_of_day : Option String
  user_id : Option Nat
  property_id : Option Nat
  created_at : String
  updated_at : String
deriving DecidableEq

/-- State of the SQLite store managed by `Database` (app/models.py),
restricted to the tables the verified operations touch. -/
structure Database where
  users : List UserRow
  user_properties : List UserPropertyRow
  sightings : List SightingRow
  next_user_id : Nat
  next_sighting_id : Nat
deriving DecidableEq

/-- Empty store, as produced by `init_database` on a fresh file. -/
def Database.empty : Database :=
  { users := [], user_properties := [], sightings := [],
    next_user_id := 1, next_sighting_id := 1 }

/-- Model of `Database.create_user`.  The source inserts and translates a
`sqlite3.IntegrityError` into "Username already exists" when the error text
names the username column and "Email already exists" when it names the email
column; SQLite reports the first violated UNIQUE index in declaration order
(username before email), so the embedding checks username first. -/
def Database.create_user (db : Database) (username email password role : String)
    (full_name : Option String) (now : String) : Except String (Nat × Database) :=
  if username = "" || (pyStrip username).length < 3 then
    Except.error "Username must be at least 3 characters"
  else if email = "" || !(email.toList.contains (Char.ofNat 64)) then
    Except.error "Valid email address is required"
  else if password = "" || password.length < 8 then
    Except.error "Password must be at least 8 characters"
  else if !(role == "admin" || role == "resident" || role == "property_manager") then
    Except.error "Invalid role. Must be admin, resident, or property_manager"
  else
    let u := pyLower (pyStrip username)
    let e := pyLower (pyStrip email)
    let ph := generate_password_hash password
    if db.users.any (fun r => r.username == u) then
      Except.error "Username already exists"
    else if db.users.any (fun r => r.email == e) then
      Except.error "Email already exists"
    else
      let uid := db.next_user_id
      let newRow : UserRow :=
        { id := uid, username := u, email := e, password_hash := ph,
          role := role, full_name := full_name, is_active := 1,
          last_login := none, created_at := now, updated_at := now }
      Except.ok (uid,
        { db with users := db.users ++ [newRow], next_user_id := uid + 1 })

/-- SQLite value as passed through the dynamic field bag of `update_user`.
The repository only ever passes text, integers or NULL in these bags. -/
inductive SqlValue where
  | s (v : String)
  | i (v : Int)
  | null
deriving DecidableEq

/-- Text reading of a `SqlValue` stored into a TEXT column. -/
def SqlValue.asText : SqlValue → String
  | .s v => v
  | .i v => toString v
  | .null => ""

/-- Nullable text reading of a `SqlValue`. -/
def SqlValue.asTextOpt : SqlValue → Option String
  | .s v => some v
  | .i v => some (toString v)
  | .null => none

/-- Integer reading of a `SqlValue` stored into an INTEGER column. -/
def SqlValue.asInt : SqlValue → Int
  | .s _ => 0
  | .i v => v
  | .null => 0

/-- The `allowed_fields` allow-list of `Database.update_user`. -/
def allowed_fields : List String :=
  ["email", "full_name", "role", "is_active", "password_hash"]

/-- The `update_fields`/`values` list built by the loop of `update_user`:
the entries of the bag whose key is allow-listed, kept in bag order. -/
def allowedUpdates (data : List (String × SqlValue)) : List (String × SqlValue) :=
  data.filter (fun kv => allowed_fields.contains kv.1)

/-- Application of one `field = ?` assignment of the dynamically built
UPDATE statement of `update_user` to a user row.  Only allow-listed fields
ever reach this point. -/
def applyUserUpdate (row : UserRow) (kv : String × SqlValue) : UserRow :=
  if kv.1 = "email" then { row with email := kv.2.asText }
  else if kv.1 = "full_name" then { row with full_name := kv.2.asTextOpt }
  else if kv.1 = "role" then { row with role := kv.2.asText }
  else if kv.1 = "is_active" then { row with is_active := kv.2.asInt }
  else if kv.1 = "password_hash" then { row with password_hash := kv.2.asText }
  else row

/-- Model of `Database.update_user`.  The source iterates over the field bag
keeping only allow-listed keys, errors when no key survives, then runs one
UPDATE; a `sqlite3.IntegrityError` (email uniqueness, or the role CHECK
constraint) is translated into the single message of the source.  When no row
matches the id, the UPDATE touches nothing and the call returns False. -/
def Database.update_user (db : Database) (user_id : Nat)
    (data : List (String × SqlValue)) (now : String) :
    Except String (Bool × Database) :=
  if user_id < 1 then Except.error "User ID must be a positive integer"
  else if data = [] then Except.error "Data must be a non-empty dictionary"
  else
    let updates := allowedUpdates data
    if updates = [] then Except.error "No valid fields to update"
    else
      match db.users.find? (fun r => r.id == user_id) with
      | none => Except.ok (false, db)
      | some row =>
        let row2 := { updates.foldl applyUserUpdate row with updated_at := now }
        if !(row2.role == "admin" || row2.role == "resident" ||
             row2.role == "property_manager") then
          Except.error "Update failed: Email may already exist"
        else if db.users.any (fun r => !(r.id == user_id) && r.email == row2.email) then
          Except.error "Update failed: Email may already exist"
        else
          let newUsers := db.users.map
            (fun r => if r.id == user_id then row2 else r)
          Except.ok (true, { db with users := newUsers })

/-- Model of `Database.delete_user`.  The repository never executes
`PRAGMA foreign_keys = ON`, so SQLite does not enforce the `ON DELETE
CASCADE` action declared on `user_properties`: the DELETE removes only the
matching `users` rows and leaves every association row in place. -/
def Database.delete_user (db : Database) (user_id : Nat) :
    Except String (Bool × Database) :=
  if user_id < 1 then Except.error "User ID must be a positive integer"
  else
    Except.ok (db.users.any (fun r => r.id == user_id),
      { db with users := db.users.filter (fun r => !(r.id == user_id)) })

/-- Decides whether an association row carries the composite primary key
(user_id, property_id), the WHERE clause of `assign_user_to_property`. -/
def pairMatch (user_id property_id : Nat) (r : UserPropertyRow) : Bool :=
  r.user_id == user_id && r.property_id == property_id

/-- The effect of the conflict-handling UPDATE of `assign_user_to_property`
on one row: rows carrying the key get the new relationship_type. -/
def upsertRow (user_id property_id : Nat) (relationship_type : String)
    (r : UserPropertyRow) : UserPropertyRow :=
  if pairMatch user_id property_id r then
    { r with relationship_type := relationship_type } else r

/-- Model of `Database.assign_user_to_property`.  The INSERT raises
`sqlite3.IntegrityError` exactly when a row with the composite primary key
(user_id, property_id) already exists (foreign keys are unenforced, and the
relationship_type CHECK was validated above); the handler then runs an
UPDATE of `relationship_type` on that key and returns `rowcount > 0`. -/
def Database.assign_user_to_property (db : Database) (user_id property_id : Nat)
    (relationship_type : String) (now : String) : Except String (Bool × Database) :=
  if user_id < 1 then Except.error "User ID must be a positive integer"
  else if property_id < 1 then Except.error "Property ID must be a positive integer"
  else if !(relationship_type == "owner" || relationship_type == "manager" ||
            relationship_type == "resident") then
    Except.error "Invalid relationship type"
  else if db.user_properties.any (pairMatch user_id property_id) then
    let newRows := db.user_properties.map
      (upsertRow user_id property_id relationship_type)
    Except.ok (true, { db with user_properties := newRows })
  else
    let newRow : UserPropertyRow :=
      { user_id := user_id, property_id := property_id,
        relationship_type := relationship_type, created_at := now }
    Except.ok (true,
      { db with user_properties := db.user_properties ++ [newRow] })

/-- Field bag passed to `create_sighting` and `update_sighting`.  Each
field is `none` when the key is absent from the Python dict (the source reads
every field with `data.get(...)`, so absent keys and explicit None coincide);
keys outside this set are never read by the source. -/
structure SightingData where
  timestamp : Option String
  location : Option String
  room_type : Option String
  roach_count : Option Int
  roach_size : Option String
  roach_type : Option String
  photo_path : Option String
  notes : Option String
  weather : Option String
  temperature : Option Int
  time_of_day : Option String
  user_id : Option Nat
  property_id : Option Nat
deriving DecidableEq

/-- Field bag with every key absent, the model of the empty dict. -/
def SightingData.emptyBag : SightingData :=
  { timestamp := none, location := none, room_type := none,
    roach_count := none, roach_size := none, roach_type := none,
    photo_path := none, notes := none, weather := none, temperature := none,
    time_of_day := none, user_id := none, property_id := none }

/-- Decides whether the bag is the empty dict (`not data` in the source). -/
def SightingData.isEmptyBag (d : SightingData) : Bool :=
  d == SightingData.emptyBag

/-- Model of `Database.create_sighting`.  Location is rejected only when the
key is absent or the value is falsy (the empty string); a whitespace-only
location is truthy in Python, passes the check, and is stored stripped. -/
def Database.create_sighting (db : Database) (data : SightingData)
    (now : String) : Except String (Nat × Database) :=
  if data.isEmptyBag then Except.error "Data must be a non-empty dictionary"
  else if data.location == none || data.location == some "" then
    Except.error "Location is required"
  else
    let roach_count := data.roach_count.getD 1
    if roach_count < 1 then Except.error "Roach count must be a positive integer"
    else
      let sid := db.next_sighting_id
      let newRow : SightingRow :=
        { id := sid, timestamp := data.timestamp.getD now,
          location := pyStrip (data.location.getD ""),
          room_type := data.room_type, roach_count := roach_count,
          roach_size := data.roach_size, roach_type := data.roach_type,
          photo_path := data.photo_path, notes := data.notes,
          weather := data.weather, temperature := data.temperature,
          time_of_day := data.time_of_day, user_id := data.user_id,
          property_id := data.property_id, created_at := now,
          updated_at := now }
      Except.ok (sid,
        { db with sightings := db.sightings ++ [newRow],
                  next_sighting_id := sid + 1 })

/-- Model of `Database.get_sighting`: a lookup by id; a missing row is the
`none` result, not an error. -/
def Database.get_sighting (db : Database) (sighting_id : Nat) :
    Except String (Option SightingRow) :=
  if sighting_id < 1 then Except.error "Sighting ID must be a positive integer"
  else Except.ok (db.sightings.find? (fun r => r.id == sighting_id))

/-- The effect of the UPDATE statement of `update_sighting` on one row:
a row matching the id has every data column rewritten from the bag (absent
keys become NULL, an absent roach_count becomes the default 1), keeping only
id and created_at; other rows are untouched. -/
def updateSightingRow (data : SightingData) (now ts : String)
    (sighting_id : Nat) (r : SightingRow) : SightingRow :=
  if r.id == sighting_id then
    { id := r.id, timestamp := ts,
      location := pyStrip (data.location.getD ""),
      room_type := data.room_type,
      roach_count := data.roach_count.getD 1,
      roach_size := data.roach_size, roach_type := data.roach_type,
      photo_path := data.photo_path, notes := data.notes,
      weather := data.weather, temperature := data.temperature,
      time_of_day := data.time_of_day, user_id := data.user_id,
      property_id := data.property_id, created_at := r.created_at,
      updated_at := now }
  else r

/-- Model of `Database.update_sighting`.  The UPDATE statement assigns every
data column from the bag, so absent keys are written as NULL and an absent
roach_count as the default 1.  The schema declares `timestamp` NOT NULL:
when a row matches the id and the bag has no timestamp, SQLite raises
`IntegrityError` and the transaction rolls back; when no row matches, the
UPDATE touches nothing and the call returns False. -/
def Database.update_sighting (db : Database) (sighting_id : Nat)
    (data : SightingData) (now : String) : Except String (Bool × Database) :=
  if sighting_id < 1 then Except.error "Sighting ID must be a positive integer"
  else if data.isEmptyBag then Except.error "Data must be a non-empty dictionary"
  else if data.location == none || data.location == some "" then
    Except.error "Location is required"
  else
    let roach_count := data.roach_count.getD 1
    if roach_count < 1 then Except.error "Roach count must be a positive integer"
    else if db.sightings.any (fun r => r.id == sighting_id) then
      match data.timestamp with
      | none => Except.error "NOT NULL constraint failed: sightings.timestamp"
      | some ts =>
        let newSightings := db.sightings.map
          (updateSightingRow data now ts sighting_id)
        Except.ok (true, { db with sightings := newSightings })
    else
      Except.ok (false, db)

/-- Decides whether a call raised (the model of a Python exception being
thrown as opposed to a value being returned). -/
def isError {α : Type} : Except String α → Bool
  | .error _ => true
  | .ok _ => false

/-!  Concrete fixtures used to evaluate the operations on specific inputs. -/

/-- Field bag `{location: "Kitchen", roach_count: 3}`. -/
def kitchenBag : SightingData :=
  { SightingData.emptyBag with location := some "Kitchen", roach_count := some 3 }

/-- Field bag `{location: "   "}` (whitespace-only location). -/
def whitespaceLocationBag : SightingData :=
  { SightingData.emptyBag with location := some "   " }

/-- Field bag `{location: "Kitchen"}` with no timestamp key. -/
def locationOnlyBag : SightingData :=
  { SightingData.emptyBag with location := some "Kitchen" }

/-- Field bag `{location: ""}`. -/
def emptyLocationBag : SightingData :=
  { SightingData.emptyBag with location := some "" }

/-- Field bag `{location: "Kitchen", roach_count: 0}`. -/
def zeroCountBag : SightingData :=
  { SightingData.emptyBag with location := some "Kitchen", roach_count := some 0 }

/-- The sighting row stored for `whitespaceLocationBag` at instant "t0": its
location is the empty string after stripping. -/
def wsSighting : SightingRow :=
  { id := 1, timestamp := "t0", location := "", room_type := none,
    roach_count := 1, roach_size := none, roach_type := none,
    photo_path := none, notes := none, weather := none, temperature := none,
    time_of_day := none, user_id := none, property_id := none,
    created_at := "t0", updated_at := "t0" }

/-- The sighting row stored for `kitchenBag` at instant "t0". -/
def kitchenSighting : SightingRow :=
  { id := 1, timestamp := "t0", location := "Kitchen", room_type := none,
    roach_count := 3, roach_size := none, roach_type := none,
    photo_path := none, notes := none, weather := none, temperature := none,
    time_of_day := none, user_id := none, property_id := none,
    created_at := "t0", updated_at := "t0" }

/-- The store reached from an empty store by creating `kitchenBag`. -/
def kitchenDB : Database :=
  { Database.empty with sightings := [kitchenSighting], next_sighting_id := 2 }

/-- A fully populated sighting row with id 1. -/
def sampleSighting : SightingRow :=
  { id := 1, timestamp := "2025-01-01T00:00:00", location := "Kitchen",
    room_type := some "kitchen", roach_count := 2, roach_size := some "small",
    roach_type := some "german", photo_path := some "p.jpg",
    notes := some "under sink", weather := some "dry", temperature := some 20,
    time_of_day := some "night", user_id := some 1, property_id := some 1,
    created_at := "2025-01-01T00:00:00", updated_at := "2025-01-01T00:00:00" }

/-- A store holding just `sampleSighting`. -/
def dbWithSighting : Database :=
  { Database.empty with sightings := [sampleSighting], next_sighting_id := 2 }

/-- Field bag `{location: " Lounge ", timestamp: "2025-02-02T02:02:02"}`
with every other key absent. -/
def sparseUpdateBag : SightingData :=
  { SightingData.emptyBag with
    location := some " Lounge ",
    timestamp := some "2025-02-02T02:02:02" }

/-- The row `sampleSighting` after `update_sighting` with `sparseUpdateBag`
at instant "t2": every absent column is NULL, roach_count is back to the
default 1, and only id and created_at survive. -/
def updatedSighting : SightingRow :=
  { id := 1, timestamp := "2025-02-02T02:02:02", location := "Lounge",
    room_type := none, roach_count := 1, roach_size := none,
    roach_type := none, photo_path := none, notes := none, weather := none,
    temperature := none, time_of_day := none, user_id := none,
    property_id := none, created_at := "2025-01-01T00:00:00",
    updated_at := "t2" }

/-- A user row with id 1. -/
def sampleUser : UserRow :=
  { id := 1, username := "alice", email := "alice@example.com",
    password_hash := "hashed:pw12345678", role := "resident",
    full_name := none, is_active := 1, last_login := none,
    created_at := "t0", updated_at := "t0" }

/-- An association row linking user 1 to property 1. -/
def sampleAssoc : UserPropertyRow :=
  { user_id := 1, property_id := 1, relationship_type := "resident",
    created_at := "t0" }

/-- A store holding user 1 together with one association row for it. -/
def dbUserWithAssoc : Database :=
  { Database.empty with
    users := [sampleUser],
    user_properties := [sampleAssoc],
    next_user_id := 2 }

/-- A second user row with id 2. -/
def bobUser : UserRow :=
  { id := 2, username := "bob", email := "bob@example.com",
    password_hash := "hashed:bobsecret", role := "resident",
    full_name := none, is_active := 1, last_login := none,
    created_at := "t0", updated_at := "t0" }

/-- A store holding the users "alice" (id 1) and "bob" (id 2). -/
def dbTwoUsers : Database :=
  { Database.empty with users := [sampleUser, bobUser], next_user_id := 3 }

/-- The row of `sampleUser` after an email update at instant "t9". -/
def updatedEmailUser : UserRow :=
  { sampleUser with email := "new@example.com", updated_at := "t9" }

/-- The association row inserted by assigning user 1 to property 1 as
"resident" at instant "a1". -/
def assoc1 : UserPropertyRow :=
  { user_id := 1, property_id := 1, relationship_type := "resident",
    created_at := "a1" }

/-- The store after the first assignment of user 1 to property 1. -/
def dbAssigned1 : Database :=
  { Database.empty with user_properties := [assoc1] }

/-- The store after re-assigning user 1 to property 1 as "owner". -/
def dbAssigned2 : Database :=
  { Database.empty with
    user_properties := [{ assoc1 with relationship_type := "owner" }] }

/-- A rate-limiter state already locked out: five recorded failures at
instant 0 and a lockout expiring at instant 900. -/
def lockedRL : RateLimiter :=
  { attempts := fun _ => [(0, false), (0, false), (0, false), (0, false), (0, false)],
    lockouts := fun _ => some 900 }

/-- The store reached from an empty store by creating the user "alice". -/
def dbAfterAlice : Database :=
  { Database.empty with
    users := [{ id := 1, username := "alice", email := "alice@example.com",
                password_hash := "hashed:password123", role := "resident",
                full_name := none, is_active := 1, last_login := none,
                created_at := "t1", updated_at := "t1" }],
    next_user_id := 2 }

/-- The state reached from a fresh rate limiter by five failed attempts for
identifier "1.2.3.4" at instants 0, 1, 2, 3, 4. -/
def lockedAfterFive : RateLimiter :=
  (((((RateLimiter.init.record_attempt "1.2.3.4" false 0).1.record_attempt
    "1.2.3.4" false 1).1.record_attempt "1.2.3.4" false 2).1.record_attempt
    "1.2.3.4" false 3).1.record_attempt "1.2.3.4" false 4).1

/-!  Claim theorems, with shared helper lemmas. -/

/-- Reading a string-keyed map at the key just written returns the written
value. -/
@[simp] theorem setFn_same {α : Type} (f : String → α) (k : String) (v : α) :
    setFn f k v k = v := by
  simp [setFn]

/-- Reading a string-keyed map at a different key is unaffected by a
write. -/
@[simp] theorem setFn_other {α : Type} (f : String → α) (k k2 : String) (v : α)
    (h : k2 ≠ k) : setFn f k v k2 = f k2 := by
  simp [setFn, h]

/-- C4: `validate_password_strength` rejects "Password123!" (it contains the
banned substring "password" case-insensitively) and accepts "Tr0ub4dor&3". -/
theorem c4_password_strength_examples :
    validate_password_strength "Password123!" =
      (false, "Password contains a common pattern. Please choose a stronger password") ∧
    validate_password_strength "Tr0ub4dor&3" = (true, "") :=
  ⟨by decide, by decide⟩

/-- C2: for every identifier X and every prior state, one successful
`record_attempt(X, true)` clears all recorded attempts and any active lockout
for X, and `get_remaining_attempts(X)` returns 5 at any later check. -/
theorem c2_success_clears_failures (rl : RateLimiter) (X : String)
    (now now2 : Int) :
    ((rl.record_attempt X true now).1).attempts X = [] ∧
    ((rl.record_attempt X true now).1).lockouts X = none ∧
    (((rl.record_attempt X true now).1).get_remaining_attempts X now2).1 = 5 := by
  simp [RateLimiter.record_attempt, RateLimiter.cleanOldAttempts,
    RateLimiter.get_remaining_attempts, max_attempts]

/-- A failed `record_attempt` leaves, for the recorded identifier, exactly
the in-window prior attempts followed by the new failure, whether or not the
call locks the identifier out. -/
theorem record_attempt_fail_attempts (rl : RateLimiter) (X : String) (now : Int) :
    ((rl.record_attempt X false now).1).attempts X =
      (rl.attempts X).filter (fun a => now - window_seconds < a.1) ++ [(now, false)] := by
  simp only [RateLimiter.record_attempt, RateLimiter.cleanOldAttempts,
    Bool.false_eq_true, if_false, setFn_same]
  split <;> simp

/-- The lockout entry written by a failed `record_attempt`: set to
`now + lockout_duration` exactly when the in-window failure count reached the
threshold, untouched otherwise. -/
theorem record_attempt_fail_lockouts (rl : RateLimiter) (X : String) (now : Int) :
    ((rl.record_attempt X false now).1).lockouts X =
      (if max_attempts ≤
          (((rl.attempts X).filter (fun a => now - window_seconds < a.1) ++
            [(now, false)]).filter (fun a => !a.2)).length
       then some (now + lockout_duration) else rl.lockouts X) := by
  simp only [RateLimiter.record_attempt, RateLimiter.cleanOldAttempts,
    Bool.false_eq_true, if_false, setFn_same]
  split <;> simp_all

/-- The audit events emitted by a failed `record_attempt`: one lockout event
exactly when the in-window failure count reached the threshold. -/
theorem record_attempt_fail_events (rl : RateLimiter) (X : String) (now : Int) :
    (rl.record_attempt X false now).2 =
      (if max_attempts ≤
          (((rl.attempts X).filter (fun a => now - window_seconds < a.1) ++
            [(now, false)]).filter (fun a => !a.2)).length
       then [lockoutEvent X] else [] : List AuditEvent) := by
  simp only [RateLimiter.record_attempt, RateLimiter.cleanOldAttempts,
    Bool.false_eq_true, if_false, setFn_same]
  split <;> simp_all

/-- A `is_locked_out` check strictly before the stored expiry returns true
and does not change the state. -/
theorem is_locked_out_active (rl : RateLimiter) (X : String) (t e : Int)
    (h : rl.lockouts X = some e) (ht : t < e) :
    rl.is_locked_out X t = (true, rl) := by
  simp [RateLimiter.is_locked_out, h, ht]

/-- A `is_locked_out` check at or after the stored expiry returns false and
clears the lockout and the failure history for the identifier. -/
theorem is_locked_out_expired (rl : RateLimiter) (X : String) (t e : Int)
    (h : rl.lockouts X = some e) (ht : e ≤ t) :
    (rl.is_locked_out X t).1 = false ∧
    ((rl.is_locked_out X t).2).attempts X = [] ∧
    ((rl.is_locked_out X t).2).lockouts X = none := by
  simp [RateLimiter.is_locked_out, h, not_lt.mpr ht]

/-- C10: every failed `record_attempt` whose resulting in-window failure
count reaches the threshold — not only the call that first reaches it — sets
the lockout expiry to 900 seconds after that call and emits a lockout audit
event, so a failure during an active lockout extends the deadline. -/
theorem c10_every_threshold_failure_relocks (rl : RateLimiter) (X : String)
    (now : Int)
    (h : 5 ≤ (((rl.attempts X).filter (fun a => now - window_seconds < a.1) ++
          [(now, false)]).filter (fun a => !a.2)).length) :
    ((rl.record_attempt X false now).1).lockouts X = some (now + 900) ∧
    (rl.record_attempt X false now).2 = [lockoutEvent X] := by
  rw [record_attempt_fail_lockouts, record_attempt_fail_events]
  simp only [max_attempts, lockout_duration]
  rw [if_pos h, if_pos h]
  exact ⟨rfl, rfl⟩

/-- Witness for C10: in a state already locked out with five failures on
record, a sixth failure at instant 10 moves the expiry from 900 to 910 and
emits a second lockout event. -/
theorem c10_witness :
    ((lockedRL.record_attempt "ip" false 10).1).lockouts "ip" = some 910 ∧
    (lockedRL.record_attempt "ip" false 10).2 = [lockoutEvent "ip"] := by
  have h := c10_every_threshold_failure_relocks lockedRL "ip" 10 (by decide)
  simpa using h

/-- A list of attempts all strictly inside the window is untouched by the
cleaning filter. -/
theorem filter_window_keep (l : List (Int × Bool)) (now : Int)
    (h : ∀ a ∈ l, now - window_seconds < a.1) :
    l.filter (fun a => now - window_seconds < a.1) = l :=
  List.filter_eq_self.mpr (fun a ha => decide_eq_true (h a ha))

/-- C1: starting with no history for identifier X, five failed attempts at
nondecreasing instants spanning less than the 300-second window lock X out
with expiry 900 seconds after the fifth failure and emit one lockout event;
every `is_locked_out` check strictly before the expiry returns true and
leaves the state unchanged, and every check at or after the expiry returns
false, clearing the lockout and leaving the failure history for X empty. -/
theorem c1_five_failures_lock_until_expiry (rl : RateLimiter) (X : String)
    (t1 t2 t3 t4 t5 : Int) (s5 : RateLimiter) (evs : List AuditEvent)
    (ha : rl.attempts X = []) (_hl : rl.lockouts X = none)
    (h12 : t1 ≤ t2) (h23 : t2 ≤ t3) (h34 : t3 ≤ t4) (h45 : t4 ≤ t5)
    (hwin : t5 < t1 + 300)
    (hs5 : ((((rl.record_attempt X false t1).1.record_attempt X false
      t2).1.record_attempt X false t3).1.record_attempt X false
      t4).1.record_attempt X false t5 = (s5, evs)) :
    s5.lockouts X = some (t5 + 900) ∧
    evs = [lockoutEvent X] ∧
    (∀ t : Int, t < t5 + 900 → s5.is_locked_out X t = (true, s5)) ∧
    (∀ t : Int, t5 + 900 ≤ t →
      (s5.is_locked_out X t).1 = false ∧
      ((s5.is_locked_out X t).2).attempts X = [] ∧
      ((s5.is_locked_out X t).2).lockouts X = none) := by
  have e1 : ((rl.record_attempt X false t1).1).attempts X = [(t1, false)] := by
    rw [record_attempt_fail_attempts, ha]
    rfl
  have m2 : ∀ a ∈ [((t1 : Int), false)], t2 - window_seconds < a.1 := by
    intro a ha2
    simp only [List.mem_singleton] at ha2
    subst ha2
    simp only [window_seconds]
    omega
  have e2 : (((rl.record_attempt X false t1).1.record_attempt X false
      t2).1).attempts X = [(t1, false), (t2, false)] := by
    rw [record_attempt_fail_attempts, e1, filter_window_keep _ _ m2]
    rfl
  have m3 : ∀ a ∈ [((t1 : Int), false), (t2, false)],
      t3 - window_seconds < a.1 := by
    intro a ha3
    simp only [List.mem_cons, List.mem_singleton, List.not_mem_nil,
      or_false] at ha3
    rcases ha3 with h | h <;> (subst h; simp only [window_seconds]; omega)
  have e3 : ((((rl.record_attempt X false t1).1.record_attempt X false
      t2).1.record_attempt X false t3).1).attempts X =
      [(t1, false), (t2, false), (t3, false)] := by
    rw [record_attempt_fail_attempts, e2, filter_window_keep _ _ m3]
    rfl
  have m4 : ∀ a ∈ [((t1 : Int), false), (t2, false), (t3, false)],
      t4 - window_seconds < a.1 := by
    intro a ha4
    simp only [List.mem_cons, List.mem_singleton, List.not_mem_nil,
      or_false] at ha4
    rcases ha4 with h | h | h <;> (subst h; simp only [window_seconds]; omega)
  have e4 : (((((rl.record_attempt X false t1).1.record_attempt X false
      t2).1.record_attempt X false t3).1.record_attempt X false
      t4).1).attempts X = [(t1, false), (t2, false), (t3, false), (t4, false)] := by
    rw [record_attempt_fail_attempts, e3, filter_window_keep _ _ m4]
    rfl
  have m5 : ∀ a ∈ [((t1 : Int), false), (t2, false), (t3, false), (t4, false)],
      t5 - window_seconds < a.1 := by
    intro a ha5
    simp only [List.mem_cons, List.mem_singleton, List.not_mem_nil,
      or_false] at ha5
    rcases ha5 with h | h | h | h <;>
      (subst h; simp only [window_seconds]; omega)
  have hs5fst : s5 = (((((rl.record_attempt X false t1).1.record_attempt X
      false t2).1.record_attempt X false t3).1.record_attempt X false
      t4).1.record_attempt X false t5).1 := by
    rw [hs5]
  have hevs : evs = (((((rl.record_attempt X false t1).1.record_attempt X
      false t2).1.record_attempt X false t3).1.record_attempt X false
      t4).1.record_attempt X false t5).2 := by
    rw [hs5]
  have hlock : s5.lockouts X = some (t5 + 900) := by
    rw [hs5fst, record_attempt_fail_lockouts, e4, filter_window_keep _ _ m5]
    simp [max_attempts, lockout_duration]
  have hev : evs = [lockoutEvent X] := by
    rw [hevs, record_attempt_fail_events, e4, filter_window_keep _ _ m5]
    simp [max_attempts]
  refine ⟨hlock, hev, ?_, ?_⟩
  · intro t ht
    exact is_locked_out_active s5 X t (t5 + 900) hlock ht
  · intro t ht
    exact is_locked_out_expired s5 X t (t5 + 900) hlock ht

/-- Witness for C1: from a fresh limiter, five failures for "1.2.3.4" at
instants 0..4 lock it out until instant 904; a check at 903 reports locked,
a check at 904 reports unlocked and empties the history. -/
theorem c1_witness :
    lockedAfterFive.lockouts "1.2.3.4" = some 904 ∧
    (lockedAfterFive.is_locked_out "1.2.3.4" 903).1 = true ∧
    (lockedAfterFive.is_locked_out "1.2.3.4" 904).1 = false ∧
    ((lockedAfterFive.is_locked_out "1.2.3.4" 904).2).attempts "1.2.3.4" = [] := by
  have h := c1_five_failures_lock_until_expiry RateLimiter.init "1.2.3.4"
    0 1 2 3 4 lockedAfterFive [lockoutEvent "1.2.3.4"]
    rfl rfl (by decide) (by decide) (by decide) (by decide) (by decide) rfl
  refine ⟨by simpa using h.1, ?_, ?_, ?_⟩
  · rw [h.2.2.1 903 (by decide)]
  · exact (h.2.2.2 904 (by decide)).1
  · exact (h.2.2.2 904 (by decide)).2.1

/-- A username whose stripped form has at least 3 characters passes the
username check of `create_user`. -/
theorem valid_username_cond (username : String)
    (h : 3 ≤ (pyStrip username).length) :
    (username = "" || (pyStrip username).length < 3) = false := by
  have hne : username ≠ "" := by
    intro he
    rw [he] at h
    exact absurd h (by decide)
  simp only [Bool.or_eq_false_iff, decide_eq_false_iff_not]
  exact ⟨hne, by omega⟩

/-- An email containing the at sign passes the email check of
`create_user`. -/
theorem valid_email_cond (email : String)
    (h : email.toList.contains (Char.ofNat 64) = true) :
    (email = "" || !(email.toList.contains (Char.ofNat 64))) = false := by
  have hne : email ≠ "" := by
    intro he
    rw [he] at h
    exact absurd h (by decide)
  simp only [h, Bool.not_true, Bool.or_false, decide_eq_false_iff_not]
  exact hne

/-- A password of at least 8 characters passes the password check of
`create_user`. -/
theorem valid_password_cond (password : String) (h : 8 ≤ password.length) :
    (password = "" || password.length < 8) = false := by
  have hne : password ≠ "" := by
    intro he
    rw [he] at h
    exact absurd h (by decide)
  simp only [Bool.or_eq_false_iff, decide_eq_false_iff_not]
  exact ⟨hne, by omega⟩

/-- A role in the enumerated set passes the role check of `create_user`. -/
theorem valid_role_cond (role : String)
    (h : role = "admin" ∨ role = "resident" ∨ role = "property_manager") :
    (!(role == "admin" || role == "resident" || role == "property_manager")) = false := by
  rcases h with h | h | h <;> (subst h; decide)

/-- A `create_user` call with valid inputs and no username or email
collision inserts exactly one normalized row and returns the next id. -/
theorem create_user_ok (db : Database) (username email password role : String)
    (fn : Option String) (now : String)
    (h1 : (username = "" || (pyStrip username).length < 3) = false)
    (h2 : (email = "" || !(email.toList.contains (Char.ofNat 64))) = false)
    (h3 : (password = "" || password.length < 8) = false)
    (h4 : (!(role == "admin" || role == "resident" ||
      role == "property_manager")) = false)
    (h5 : db.users.any (fun r => r.username == pyLower (pyStrip username)) = false)
    (h6 : db.users.any (fun r => r.email == pyLower (pyStrip email)) = false) :
    db.create_user username email password role fn now =
      Except.ok (db.next_user_id,
        { db with
          users := db.users ++
            [{ id := db.next_user_id,
               username := pyLower (pyStrip username),
               email := pyLower (pyStrip email),
               password_hash := generate_password_hash password,
               role := role, full_name := fn, is_active := 1,
               last_login := none, created_at := now, updated_at := now }],
          next_user_id := db.next_user_id + 1 }) := by
  simp only [Database.create_user, h1, h2, h3, h4, h5, h6, Bool.false_eq_true,
    if_false]

/-- A `create_user` call with valid inputs whose normalized username already
exists fails with the username-conflict message. -/
theorem create_user_username_exists (db : Database)
    (username email password role : String) (fn : Option String) (now : String)
    (h1 : (username = "" || (pyStrip username).length < 3) = false)
    (h2 : (email = "" || !(email.toList.contains (Char.ofNat 64))) = false)
    (h3 : (password = "" || password.length < 8) = false)
    (h4 : (!(role == "admin" || role == "resident" ||
      role == "property_manager")) = false)
    (h5 : db.users.any (fun r => r.username == pyLower (pyStrip username)) = true) :
    db.create_user username email password role fn now =
      Except.error "Username already exists" := by
  simp only [Database.create_user, h1, h2, h3, h4, h5, Bool.false_eq_true,
    if_false, if_true]

/-- A `create_user` call with valid inputs, a fresh username and a colliding
normalized email fails with the email-conflict message. -/
theorem create_user_email_exists (db : Database)
    (username email password role : String) (fn : Option String) (now : String)
    (h1 : (username = "" || (pyStrip username).length < 3) = false)
    (h2 : (email = "" || !(email.toList.contains (Char.ofNat 64))) = false)
    (h3 : (password = "" || password.length < 8) = false)
    (h4 : (!(role == "admin" || role == "resident" ||
      role == "property_manager")) = false)
    (h5 : db.users.any (fun r => r.username == pyLower (pyStrip username)) = false)
    (h6 : db.users.any (fun r => r.email == pyLower (pyStrip email)) = true) :
    db.create_user username email password role fn now =
      Except.error "Email already exists" := by
  simp only [Database.create_user, h1, h2, h3, h4, h5, h6, Bool.false_eq_true,
    if_false, if_true]

/-- C3: for every input tuple passing the `create_user` validation rules on
a store where neither the normalized username nor email exists, the first
call succeeds and returns the next user id; a second valid call with the
same username (any email) fails with the username-conflict error, and a
valid call with the same email but a different fresh username fails with the
email-conflict error. -/
theorem c3_create_user_unique_conflicts (db : Database)
    (username email password role : String) (fn : Option String) (now : String)
    (email2 password2 role2 : String) (fn2 : Option String) (now2 : String)
    (username2 password3 role3 : String) (fn3 : Option String) (now3 : String)
    (hu : 3 ≤ (pyStrip username).length)
    (he : email.toList.contains (Char.ofNat 64) = true)
    (hp : 8 ≤ password.length)
    (hr : role = "admin" ∨ role = "resident" ∨ role = "property_manager")
    (he2 : email2.toList.contains (Char.ofNat 64) = true)
    (hp2 : 8 ≤ password2.length)
    (hr2 : role2 = "admin" ∨ role2 = "resident" ∨ role2 = "property_manager")
    (hu2 : 3 ≤ (pyStrip username2).length)
    (hp3 : 8 ≤ password3.length)
    (hr3 : role3 = "admin" ∨ role3 = "resident" ∨ role3 = "property_manager")
    (hfu : db.users.any (fun r => r.username == pyLower (pyStrip username)) = false)
    (hfe : db.users.any (fun r => r.email == pyLower (pyStrip email)) = false)
    (hfu2 : db.users.any (fun r => r.username == pyLower (pyStrip username2)) = false)
    (hdiff : pyLower (pyStrip username2) ≠ pyLower (pyStrip username)) :
    ∃ db2 : Database,
      db.create_user username email password role fn now =
        Except.ok (db.next_user_id, db2) ∧
      db2.create_user username email2 password2 role2 fn2 now2 =
        Except.error "Username already exists" ∧
      db2.create_user username2 email password3 role3 fn3 now3 =
        Except.error "Email already exists" := by
  have v1 := valid_username_cond username hu
  have v2 := valid_email_cond email he
  have v3 := valid_password_cond password hp
  have v4 := valid_role_cond role hr
  have hok := create_user_ok db username email password role fn now v1 v2 v3 v4 hfu hfe
  refine ⟨_, hok, ?_, ?_⟩
  · exact create_user_username_exists _ username email2 password2 role2 fn2 now2
      v1 (valid_email_cond email2 he2) (valid_password_cond password2 hp2)
      (valid_role_cond role2 hr2) (by simp [List.any_append])
  · exact create_user_email_exists _ username2 email password3 role3 fn3 now3
      (valid_username_cond username2 hu2) v2 (valid_password_cond password3 hp3)
      (valid_role_cond role3 hr3)
      (by simp [List.any_append, hfu2, beq_eq_false_iff_ne]
          exact Ne.symm hdiff)
      (by simp [List.any_append])

/-- Witness for C3: creating "alice" in an empty store succeeds with id 1;
re-creating "alice" with a different email fails with the username conflict,
and creating "bobby" with the email of "alice" fails with the email
conflict. -/
theorem c3_witness :
    Database.empty.create_user "alice" "alice@example.com" "password123"
      "resident" none "t1" = Except.ok (1, dbAfterAlice) ∧
    dbAfterAlice.create_user "alice" "bob@example.com" "secondpw1"
      "resident" none "t2" = Except.error "Username already exists" ∧
    dbAfterAlice.create_user "bobby" "alice@example.com" "thirdpw12"
      "resident" none "t3" = Except.error "Email already exists" := by
  obtain ⟨db2, h1, h2, h3⟩ := c3_create_user_unique_conflicts Database.empty
    "alice" "alice@example.com" "password123" "resident" none "t1"
    "bob@example.com" "secondpw1" "resident" none "t2"
    "bobby" "thirdpw12" "resident" none "t3"
    (by decide) (by decide) (by decide) (Or.inr (Or.inl rfl))
    (by decide) (by decide) (Or.inr (Or.inl rfl))
    (by decide) (by decide) (Or.inr (Or.inl rfl))
    (by decide) (by decide) (by decide) (by decide)
  have e : Database.empty.create_user "alice" "alice@example.com" "password123"
      "resident" none "t1" = Except.ok (1, dbAfterAlice) := rfl
  rw [e] at h1
  simp only [Except.ok.injEq, Prod.mk.injEq, Database.empty] at h1
  obtain ⟨-, hdb⟩ := h1
  subst hdb
  exact ⟨e, h2, h3⟩

/-- Counterexample for C5: a whitespace-only location is truthy in Python,
so `create_sighting({location: "   "})` does not raise; it succeeds and
stores a row whose location is the empty string after stripping — the claim
that a whitespace-only location fails, and that a stored location is never
empty, is false. -/
theorem c5_counterexample_whitespace_location :
    Database.empty.create_sighting whitespaceLocationBag "t0" =
      Except.ok (1, { Database.empty with
                      sightings := [wsSighting], next_sighting_id := 2 }) ∧
    wsSighting.location = "" :=
  ⟨rfl, rfl⟩

/-- C5 (amended): `create_sighting` fails whenever the location key is
absent or its value is the empty string, and whenever roach_count is present
and below 1; `{location: "Kitchen", roach_count: 3}` succeeds on an empty
store and `get_sighting` then returns roach_count 3; every stored location
is the stripped input location (so it carries no surrounding whitespace,
though it is empty when the input was whitespace-only). -/
theorem c5_amended_create_sighting_validation :
    (∀ (db : Database) (data : SightingData) (now : String),
      data.location = none ∨ data.location = some "" →
      isError (db.create_sighting data now) = true) ∧
    (∀ (db : Database) (data : SightingData) (now : String) (k : Int),
      data.roach_count = some k → k < 1 →
      isError (db.create_sighting data now) = true) ∧
    (Database.empty.create_sighting kitchenBag "t0" = Except.ok (1, kitchenDB) ∧
      kitchenDB.get_sighting 1 = Except.ok (some kitchenSighting) ∧
      kitchenSighting.roach_count = 3) ∧
    (∀ (db : Database) (data : SightingData) (now : String) (sid : Nat)
      (db2 : Database),
      db.create_sighting data now = Except.ok (sid, db2) →
      db2.sightings.map (fun r => r.location) =
        db.sightings.map (fun r => r.location) ++
          [pyStrip (data.location.getD "")]) := by
  refine ⟨?_, ?_, ⟨rfl, rfl, rfl⟩, ?_⟩
  · intro db data now h
    have hc : (data.location == none || data.location == some "") = true := by
      rcases h with h | h <;> simp [h]
    simp only [Database.create_sighting, hc, if_true]
    split
    · rfl
    · rfl
  · intro db data now k hk hlt
    simp only [Database.create_sighting, hk, Option.getD_some]
    split
    · rfl
    · split
      · rfl
      · rfl
  · intro db data now sid db2 h
    simp only [Database.create_sighting] at h
    split at h
    · exact absurd h (by simp)
    · split at h
      · exact absurd h (by simp)
      · split at h
        · exact absurd h (by simp)
        · simp only [Except.ok.injEq, Prod.mk.injEq] at h
          rw [← h.2]
          simp

/-- Witness for C5 (amended): an empty-string location and a zero
roach_count each raise; the Kitchen fixture stores the stripped location. -/
theorem c5_witness :
    isError (Database.empty.create_sighting emptyLocationBag "t0") = true ∧
    isError (Database.empty.create_sighting zeroCountBag "t0") = true ∧
    kitchenDB.sightings.map (fun r => r.location) =
      Database.empty.sightings.map (fun r => r.location) ++
        [pyStrip (kitchenBag.location.getD "")] := by
  refine ⟨?_, ?_, ?_⟩
  · exact c5_amended_create_sighting_validation.1 Database.empty
      emptyLocationBag "t0" (Or.inr rfl)
  · exact c5_amended_create_sighting_validation.2.1 Database.empty
      zeroCountBag "t0" 0 rfl (by decide)
  · exact c5_amended_create_sighting_validation.2.2.2 Database.empty
      kitchenBag "t0" 1 kitchenDB rfl

/-- Counterexample for C6: a field bag holding the allow-listed key "email"
together with the unknown key "is_admin" is not rejected — `update_user`
silently drops the unknown key and applies the email change. -/
theorem c6_counterexample_extra_key_not_rejected :
    dbUserWithAssoc.update_user 1
      [("email", SqlValue.s "new@example.com"), ("is_admin", SqlValue.s "yes")]
      "t9" =
      Except.ok (true, { dbUserWithAssoc with users := [updatedEmailUser] }) :=
  rfl

/-- C6 (amended): `update_user` applies only the allow-listed fields of the
bag, silently ignoring every other key (the call behaves exactly as if the
bag had been filtered to the allow-list first); it errors only when the bag
holds no allow-listed key at all; and it fails with the conflict error when
the updated email already belongs to a different user. -/
theorem c6_amended_update_user_allowlist :
    (∀ (db : Database) (user_id : Nat) (data : List (String × SqlValue))
      (now : String),
      allowedUpdates data ≠ [] →
      db.update_user user_id data now =
        db.update_user user_id (allowedUpdates data) now) ∧
    (∀ (db : Database) (user_id : Nat) (data : List (String × SqlValue))
      (now : String),
      1 ≤ user_id → data ≠ [] → allowedUpdates data = [] →
      db.update_user user_id data now =
        Except.error "No valid fields to update") ∧
    (∀ (db : Database) (user_id : Nat) (data : List (String × SqlValue))
      (now : String) (row : UserRow),
      1 ≤ user_id → allowedUpdates data ≠ [] →
      db.users.find? (fun r => r.id == user_id) = some row →
      db.users.any (fun r => !(r.id == user_id) && r.email ==
        ({ (allowedUpdates data).foldl applyUserUpdate row with
           updated_at := now }).email) = true →
      db.update_user user_id data now =
        Except.error "Update failed: Email may already exist") := by
  refine ⟨?_, ?_, ?_⟩
  · intro db user_id data now hne
    have hd : data ≠ [] := by
      intro h
      rw [h] at hne
      exact hne rfl
    have hidem : allowedUpdates (allowedUpdates data) = allowedUpdates data := by
      simp [allowedUpdates, List.filter_filter]
    simp [Database.update_user, hd, hne, hidem]
  · intro db user_id data now h1 hd hfil
    have hlt : ¬ user_id < 1 := by omega
    simp [Database.update_user, hlt, hd, hfil]
  · intro db user_id data now row h1 hne hfind hcol
    have hlt : ¬ user_id < 1 := by omega
    have hd : data ≠ [] := by
      intro h
      rw [h] at hne
      exact hne rfl
    simp only [Database.update_user, hlt, if_false, hd, hne, hfind, hcol]
    split
    · rfl
    · simp [hcol]

/-- Witness for C6 (amended): a bag with an unknown key behaves as its
filtered form; a bag with only unknown keys errors; updating the email of
"bob" to the email of "alice" fails with the conflict error. -/
theorem c6_witness :
    dbUserWithAssoc.update_user 1
        [("email", SqlValue.s "new@example.com"), ("junk", SqlValue.null)] "t9" =
      dbUserWithAssoc.update_user 1
        (allowedUpdates
          [("email", SqlValue.s "new@example.com"), ("junk", SqlValue.null)]) "t9" ∧
    dbUserWithAssoc.update_user 1 [("junk", SqlValue.null)] "t9" =
      Except.error "No valid fields to update" ∧
    dbTwoUsers.update_user 2 [("email", SqlValue.s "alice@example.com")] "t9" =
      Except.error "Update failed: Email may already exist" := by
  refine ⟨?_, ?_, ?_⟩
  · exact c6_amended_update_user_allowlist.1 dbUserWithAssoc 1
      [("email", SqlValue.s "new@example.com"), ("junk", SqlValue.null)] "t9"
      (by decide)
  · exact c6_amended_update_user_allowlist.2.1 dbUserWithAssoc 1
      [("junk", SqlValue.null)] "t9" (by decide) (by decide) (by decide)
  · exact c6_amended_update_user_allowlist.2.2 dbTwoUsers 2
      [("email", SqlValue.s "alice@example.com")] "t9" bobUser
      (by decide) (by decide) rfl (by decide)

/-- C7: evaluation at the failing input.  Deleting user 1 from a store where
user 1 has one association row removes the user row but leaves the
association row in `user_properties` — the cascade promised by the schema's
`ON DELETE CASCADE` never runs because no connection enables SQLite
foreign-key enforcement. -/
theorem c7_delete_user_leaves_association :
    dbUserWithAssoc.delete_user 1 =
      Except.ok (true, { dbUserWithAssoc with users := [] }) ∧
    ({ dbUserWithAssoc with users := [] } : Database).user_properties =
      [sampleAssoc] :=
  ⟨rfl, rfl⟩

/-- Applying the conflict-handling UPDATE to a row does not change whether
the row carries the (user_id, property_id) key. -/
theorem pairMatch_upsertRow (u p : Nat) (t : String) (r : UserPropertyRow) :
    pairMatch u p (upsertRow u p t r) = pairMatch u p r := by
  unfold upsertRow
  by_cases h : pairMatch u p r = true
  · rw [if_pos h]
    rfl
  · rw [if_neg h]

/-- The conflict-handling UPDATE does not change which rows carry the key. -/
theorem upsert_any (l : List UserPropertyRow) (u p : Nat) (t : String) :
    (l.map (upsertRow u p t)).any (pairMatch u p) = l.any (pairMatch u p) := by
  induction l with
  | nil => rfl
  | cons a l ih =>
    simp only [List.map_cons, List.any_cons, ih, pairMatch_upsertRow]

/-- Filtering for the key commutes with the conflict-handling UPDATE. -/
theorem upsert_filter (l : List UserPropertyRow) (u p : Nat) (t : String) :
    (l.map (upsertRow u p t)).filter (pairMatch u p) =
      (l.filter (pairMatch u p)).map (upsertRow u p t) := by
  induction l with
  | nil => rfl
  | cons a l ih =>
    simp only [List.map_cons, List.filter_cons, pairMatch_upsertRow]
    by_cases h : pairMatch u p a = true
    · simp [h, ih]
    · simp [h, ih]

/-- On rows that all carry the key, the conflict-handling UPDATE rewrites
every relationship_type to the new value. -/
theorem upsert_types (m : List UserPropertyRow) (u p : Nat) (t : String)
    (hm : ∀ r ∈ m, pairMatch u p r = true) :
    (m.map (upsertRow u p t)).map (fun r => r.relationship_type) =
      m.map (fun _ => t) := by
  induction m with
  | nil => rfl
  | cons a m ih =>
    have ha := hm a (List.mem_cons_self a m)
    simp only [List.map_cons, upsertRow, ha, if_true]
    rw [ih (fun r hr => hm r (List.mem_cons_of_mem a hr))]

/-- C8: on a store satisfying the composite-key invariant for (U, P), two
`assign_user_to_property` calls for the same pair with valid relationship
types leave exactly one association row for the pair, holding the second
type; neither call errors. -/
theorem c8_assign_twice_keeps_one_row (db : Database) (u p : Nat)
    (t1 t2 now1 now2 : String)
    (hu : 1 ≤ u) (hp : 1 ≤ p)
    (ht1 : t1 = "owner" ∨ t1 = "manager" ∨ t1 = "resident")
    (ht2 : t2 = "owner" ∨ t2 = "manager" ∨ t2 = "resident")
    (hne : t1 ≠ t2)
    (hpk : (db.user_properties.filter (pairMatch u p)).length ≤ 1) :
    ∃ db1 db2 : Database,
      db.assign_user_to_property u p t1 now1 = Except.ok (true, db1) ∧
      db1.assign_user_to_property u p t2 now2 = Except.ok (true, db2) ∧
      (db2.user_properties.filter (pairMatch u p)).map
        (fun r => r.relationship_type) = [t2] := by
  have hu1 : ¬ u < 1 := by omega
  have hp1 : ¬ p < 1 := by omega
  have vt1 : ¬ ((!(t1 == "owner" || t1 == "manager" || t1 == "resident")) = true) := by
    rcases ht1 with h | h | h <;> (subst h; decide)
  have vt2 : ¬ ((!(t2 == "owner" || t2 == "manager" || t2 == "resident")) = true) := by
    rcases ht2 with h | h | h <;> (subst h; decide)
  by_cases hmem : db.user_properties.any (pairMatch u p) = true
  · refine ⟨{ db with user_properties :=
        db.user_properties.map (upsertRow u p t1) },
      { db with user_properties :=
        (db.user_properties.map (upsertRow u p t1)).map (upsertRow u p t2) },
      ?_, ?_, ?_⟩
    · simp only [Database.assign_user_to_property]
      rw [if_neg hu1, if_neg hp1, if_neg vt1, if_pos hmem]
    · have hmem2 : (db.user_properties.map (upsertRow u p t1)).any
          (pairMatch u p) = true := by
        rw [upsert_any]
        exact hmem
      simp only [Database.assign_user_to_property]
      rw [if_neg hu1, if_neg hp1, if_neg vt2, if_pos hmem2]
    · rw [upsert_filter, upsert_filter]
      rw [upsert_types]
      · have h1 : 1 ≤ (db.user_properties.filter (pairMatch u p)).length := by
          obtain ⟨x, hx, hpx⟩ := List.any_eq_true.mp hmem
          have hxm : x ∈ db.user_properties.filter (pairMatch u p) :=
            List.mem_filter.mpr ⟨hx, hpx⟩
          exact List.length_pos.mpr (List.ne_nil_of_mem hxm)
        have hlen : (db.user_properties.filter (pairMatch u p)).length = 1 :=
          le_antisymm hpk h1
        obtain ⟨a, hae⟩ := List.length_eq_one.mp hlen
        rw [hae]
        rfl
      · intro r hr
        obtain ⟨s, hs, rfl⟩ := List.mem_map.mp hr
        rw [pairMatch_upsertRow]
        exact List.of_mem_filter hs
  · refine ⟨{ db with user_properties := db.user_properties ++
        [(⟨u, p, t1, now1⟩ : UserPropertyRow)] },
      { db with user_properties := (db.user_properties ++
        [(⟨u, p, t1, now1⟩ : UserPropertyRow)]).map (upsertRow u p t2) },
      ?_, ?_, ?_⟩
    · simp only [Database.assign_user_to_property]
      rw [if_neg hu1, if_neg hp1, if_neg vt1, if_neg hmem]
    · have hmem2 : ((db.user_properties ++
          [(⟨u, p, t1, now1⟩ : UserPropertyRow)]).any (pairMatch u p)) = true := by
        simp [List.any_append, pairMatch]
      simp only [Database.assign_user_to_property]
      rw [if_neg hu1, if_neg hp1, if_neg vt2, if_pos hmem2]
    · have hfl : db.user_properties.filter (pairMatch u p) = [] := by
        rw [List.filter_eq_nil_iff]
        intro a ha
        have hall := List.any_eq_false.mp
          (by cases hb : db.user_properties.any (pairMatch u p)
              · rfl
              · exact absurd hb hmem)
        simpa using hall a ha
      rw [upsert_filter, List.filter_append, hfl]
      simp [pairMatch, upsertRow]

/-- Witness for C8: assigning user 1 to property 1 as "resident" and then as
"owner" succeeds both times and leaves exactly one association row, holding
"owner". -/
theorem c8_witness :
    Database.empty.assign_user_to_property 1 1 "resident" "a1" =
      Except.ok (true, dbAssigned1) ∧
    dbAssigned1.assign_user_to_property 1 1 "owner" "a2" =
      Except.ok (true, dbAssigned2) ∧
    (dbAssigned2.user_properties.filter (pairMatch 1 1)).map
      (fun r => r.relationship_type) = ["owner"] := by
  obtain ⟨db1, db2, h1, h2, h3⟩ := c8_assign_twice_keeps_one_row Database.empty
    1 1 "resident" "owner" "a1" "a2" (by decide) (by decide)
    (Or.inr (Or.inr rfl)) (Or.inl rfl) (by decide) (by decide)
  have e1 : Database.empty.assign_user_to_property 1 1 "resident" "a1" =
      Except.ok (true, dbAssigned1) := rfl
  rw [e1] at h1
  simp only [Except.ok.injEq, Prod.mk.injEq, true_and] at h1
  subst h1
  have e2 : dbAssigned1.assign_user_to_property 1 1 "owner" "a2" =
      Except.ok (true, dbAssigned2) := rfl
  rw [e2] at h2
  simp only [Except.ok.injEq, Prod.mk.injEq, true_and] at h2
  subst h2
  exact ⟨e1, e2, h3⟩

/-- Counterexample for C9: the bag `{location: "Kitchen"}` passes the
explicit validation of `update_sighting`, but on an existing row the UPDATE
writes NULL into the NOT NULL column timestamp, so the call raises instead
of storing NULL — the claim that an absent timestamp is "set to NULL" is
false. -/
theorem c9_counterexample_missing_timestamp :
    dbWithSighting.update_sighting 1 locationOnlyBag "t1" =
      Except.error "NOT NULL constraint failed: sightings.timestamp" :=
  rfl

/-- The UPDATE of `update_sighting` never changes a row's id. -/
theorem updateSightingRow_id (data : SightingData) (now ts : String)
    (sid : Nat) (r : SightingRow) :
    (updateSightingRow data now ts sid r).id = r.id := by
  unfold updateSightingRow
  split <;> rfl

/-- Looking a row up by id after the UPDATE of `update_sighting` returns the
updated image of the row found before it. -/
theorem find?_map_updateSightingRow (l : List SightingRow) (sid : Nat)
    (data : SightingData) (now ts : String) (row : SightingRow)
    (h : l.find? (fun r => r.id == sid) = some row) :
    (l.map (updateSightingRow data now ts sid)).find? (fun r => r.id == sid) =
      some (updateSightingRow data now ts sid row) := by
  induction l with
  | nil => simp at h
  | cons a l ih =>
    cases hpa : (a.id == sid)
    · simp only [List.find?_cons, List.map_cons, updateSightingRow_id,
        hpa] at h ⊢
      exact ih h
    · simp only [List.find?_cons, List.map_cons, updateSightingRow_id,
        hpa] at h ⊢
      cases h
      rfl

/-- C9 (amended): on a bag that passes validation and contains a timestamp,
`update_sighting` on an existing row succeeds and overwrites every data
column of that row from the bag — fields absent from the bag become NULL, an
absent roach_count becomes 1, and only id and created_at are preserved
(updated_at is set to the call instant).  When the bag has no timestamp and
the row exists, the call instead fails with the NOT NULL constraint error of
the counterexample. -/
theorem c9_amended_update_overwrites_all_columns (db : Database)
    (sighting_id : Nat) (data : SightingData) (now : String)
    (oldRow : SightingRow) (ts : String)
    (hid : 1 ≤ sighting_id)
    (hloc : ¬ ((data.location == none || data.location == some "") = true))
    (hcnt : ¬ (data.roach_count.getD 1 < 1))
    (hfind : db.sightings.find? (fun r => r.id == sighting_id) = some oldRow)
    (hts : data.timestamp = some ts) :
    ∃ db2 : Database,
      db.update_sighting sighting_id data now = Except.ok (true, db2) ∧
      db2.sightings.find? (fun r => r.id == sighting_id) =
        some { id := oldRow.id, timestamp := ts,
               location := pyStrip (data.location.getD ""),
               room_type := data.room_type,
               roach_count := data.roach_count.getD 1,
               roach_size := data.roach_size, roach_type := data.roach_type,
               photo_path := data.photo_path, notes := data.notes,
               weather := data.weather, temperature := data.temperature,
               time_of_day := data.time_of_day, user_id := data.user_id,
               property_id := data.property_id,
               created_at := oldRow.created_at, updated_at := now } := by
  have hne : ¬ (data.isEmptyBag = true) := by
    intro he
    have hdeq : data = SightingData.emptyBag := by
      simpa [SightingData.isEmptyBag] using he
    rw [hdeq] at hloc
    exact hloc rfl
  have hrow : (oldRow.id == sighting_id) = true := by
    have h := List.find?_some hfind
    simpa using h
  have hmem : db.sightings.any (fun r => r.id == sighting_id) = true :=
    List.any_eq_true.mpr ⟨oldRow, List.mem_of_find?_eq_some hfind, hrow⟩
  refine ⟨{ db with sightings :=
      db.sightings.map (updateSightingRow data now ts sighting_id) }, ?_, ?_⟩
  · simp only [Database.update_sighting]
    rw [if_neg (show ¬ sighting_id < 1 by omega), if_neg hne, if_neg hloc,
      if_neg hcnt, if_pos hmem, hts]
  · rw [show ({ db with sightings :=
        db.sightings.map (updateSightingRow data now ts sighting_id) } :
        Database).sightings =
        db.sightings.map (updateSightingRow data now ts sighting_id) from rfl]
    rw [find?_map_updateSightingRow db.sightings sighting_id data now ts
      oldRow hfind]
    unfold updateSightingRow
    rw [if_pos hrow]

/-- Witness for C9 (amended): updating the fully populated sighting 1 with a
bag holding only a location and a timestamp resets every other column (NULL
or the roach_count default 1) and keeps only id and created_at. -/
theorem c9_witness :
    dbWithSighting.update_sighting 1 sparseUpdateBag "t2" =
      Except.ok (true, { dbWithSighting with sightings := [updatedSighting] }) ∧
    ({ dbWithSighting with sightings := [updatedSighting] } :
        Database).sightings.find? (fun r => r.id == 1) =
      some updatedSighting := by
  obtain ⟨db2, h1, h2⟩ := c9_amended_update_overwrites_all_columns
    dbWithSighting 1 sparseUpdateBag "t2" sampleSighting "2025-02-02T02:02:02"
    (by decide) (by decide) (by decide) rfl rfl
  have e1 : dbWithSighting.update_sighting 1 sparseUpdateBag "t2" =
      Except.ok (true, { dbWithSighting with sightings := [updatedSighting] }) :=
    rfl
  rw [e1] at h1
  simp only [Except.ok.injEq, Prod.mk.injEq, true_and] at h1
  subst h1
  exact ⟨e1, h2⟩
